import Mathlib

/-!
Shallow embedding of the policy retrieval and answer-synthesis engine of the
cg_youth_poc repository, together with theorems settling the frozen claims.

Python string values are modelled as Lean `String`s (sequences of code
points, matching Python semantics), numbers appearing in similarity scores
as exact rationals, fallible calls to external collaborators (ChromaDB,
OpenAI) as `Except`-valued oracles supplied in the state.
-/

/-! ## Python string primitives -/

/-- Characters removed by Python `str.strip()` on the inputs occurring here:
ASCII whitespace and the non-breaking space. -/
def isPySpace (c : Char) : Bool := c.isWhitespace || c = ' '

/-- Embeds Python `s.strip()`. -/
def pyStrip (s : String) : String :=
  String.mk (((s.data.dropWhile isPySpace).reverse.dropWhile isPySpace).reverse)

/-- Embeds Python `s.replace("\xa0", " ")` (the pattern is a single character). -/
def replaceNbsp (s : String) : String :=
  String.mk (s.data.map (fun c => if c = ' ' then ' ' else c))

/-- Embeds Python substring containment `needle in hay`. -/
def pyIn (needle hay : String) : Bool :=
  hay.data.tails.any (fun t => needle.data.isPrefixOf t)

/-- Embeds Python `c in s` for a one-character pattern. -/
def pyInChar (c : Char) (s : String) : Bool := s.data.contains c

/-- Embeds Python `str.split(sep)` for a one-character separator, on the
underlying character list. -/
def splitChar (c : Char) : List Char → List (List Char)
  | [] => [[]]
  | x :: xs =>
    match splitChar c xs with
    | [] => [[]]
    | s :: rest => if x = c then [] :: s :: rest else (x :: s) :: rest

/-- Embeds Python `s.split(sep)` for a one-character separator. -/
def pySplitChar (c : Char) (s : String) : List String :=
  (splitChar c s.data).map String.mk

/-- Embeds Python slicing `s[:n]` (by code points). -/
def pyTake (n : Nat) (s : String) : String := String.mk (s.data.take n)

/-- Embeds Python `d.get(k, default)` on a string-valued dict modelled as an
association list (keys unique, insertion ordered). -/
def pyGetD (d : List (String × String)) (k df : String) : String :=
  ((d.find? (fun kv => kv.1 == k)).map (fun kv => kv.2)).getD df

/-- Models Python fixed-point formatting `{x:.precf}` of a similarity score,
over exact rationals; Python formats an IEEE double, so the rounding of a
tie is approximated (round half up). No claim depends on the digits. -/
def fmtFixed (prec : Nat) (r : Rat) : String :=
  let base : Nat := 10 ^ prec
  let n : Int := Rat.floor (r * (base : Rat) + (1 : Rat) / 2)
  let sign := if n < 0 then "-" else ""
  let m : Nat := n.natAbs
  let frDigits := (Nat.toDigits 10 (base + m % base)).drop 1
  sign ++ toString (m / base) ++ "." ++ String.mk frDigits

/-- Models Python percent formatting `{x:.1%}`. -/
def fmtPercent1 (r : Rat) : String := fmtFixed 1 (r * 100) ++ "%"

/-! ## Record Normalizer (src/scripts/detail_parser.py) -/

namespace Detail

/-- A JSON-like value stored in the record dict produced by `parse_detail`:
either a string field or the constant tag list. -/
inductive JVal where
  | str : String → JVal
  | arr : List String → JVal
deriving DecidableEq, Repr

/-- The destination of a matched label: a plain text field, the
application-period field pair, or a link-bearing field whose anchor href is
stored (`src/scripts/detail_parser.py` lines 52-125). -/
inductive FieldSpec where
  | plain : String → FieldSpec
  | period : FieldSpec
  | site : String → FieldSpec
deriving DecidableEq, Repr

/-- A td cell: its rendered text and, when an anchor with an href is
present, that href (`td.find("a")`). -/
structure PCell where
  text : String
  link : Option String
deriving Repr

/-- A table row: the texts of its th elements and its td cells. The source loops
`for i, th in enumerate(th_elements): if i < len(td_elements)`, i.e. a zip. -/
structure PRow where
  ths : List String
  tds : List PCell
deriving Repr

/-- A `form-table` together with the text of a preceding `strong` sibling
(empty when none); the DOM traversal producing it is outside the core. -/
structure PTable where
  titleText : String
  rows : List PRow
deriving Repr

/-- A scraped detail page: the optional `.policy-detail .title` text and the
`form-table`s. -/
structure Page where
  title : Option String
  tables : List PTable
deriving Repr

/-- Label table of the 사업개요 (overview) section, in source `elif` order. -/
def overviewTable : List (String × FieldSpec) :=
  [("정책 유형", .plain "policy_type"), ("주관 기관", .plain "agency"),
   ("정책 소개", .plain "introduction"), ("지원 내용", .plain "content"),
   ("사업운영기간", .plain "operation_period"), ("사업신청기간", .period),
   ("지원규모", .plain "support_scale"), ("관련 사이트", .site "related_site")]

/-- Label table of the 신청자격 (eligibility) section, in source order. -/
def eligibilityTable : List (String × FieldSpec) :=
  [("연령", .plain "age_range"), ("학력", .plain "education"),
   ("전공요건", .plain "major_requirement"), ("취업상태", .plain "employment_status"),
   ("특화분야 요건", .plain "specialized_field"),
   ("추가단서 사항", .plain "additional_requirements"),
   ("참여제한 대상", .plain "excluded_targets")]

/-- Label table of the 신청방법 (application-method) section, in source order. -/
def methodTable : List (String × FieldSpec) :=
  [("신청절차", .plain "application_procedure"),
   ("심사 및 발표", .plain "evaluation_announcement"),
   ("제출서류", .plain "required_documents"), ("신청 사이트", .site "application_site")]

/-- Label table of the 기타 (other) section, in source order. -/
def etcTable : List (String × FieldSpec) :=
  [("기타사항", .plain "other_matters"), ("운영기관", .plain "operating_agency"),
   ("참고 사이트 Ⅰ", .site "reference_site_1"), ("참고 사이트 Ⅱ", .site "reference_site_2")]

/-- Section dispatch table: marker contained in the table title, in source
`elif` order. -/
def sectionTables : List (String × List (String × FieldSpec)) :=
  [("사업개요", overviewTable), ("신청자격", eligibilityTable),
   ("신청방법", methodTable), ("기타", etcTable)]

/-- Embeds the 사업신청기간 branch (`src/scripts/detail_parser.py` lines 63-74):
split the value on "~", strip each part, first part is apply_start and the
last part apply_end; without the delimiter, the whole value is apply_start
and apply_end is empty. -/
def periodAssign (value : String) : List (String × String) :=
  if pyInChar '~' value then
    if 2 ≤ ((pySplitChar '~' value).map pyStrip).length then
      [("apply_start", ((pySplitChar '~' value).map pyStrip).headD ""),
       ("apply_end", ((pySplitChar '~' value).map pyStrip).getLastD "")]
    else
      [("apply_start", value), ("apply_end", "")]
  else
    [("apply_start", value), ("apply_end", "")]

/-- Field assignments produced by one label cell under the label table of one section: the first pattern (in source order) contained in the label wins, as
in the source `elif` chain. -/
def assignFromTable (tbl : List (String × FieldSpec)) (label value : String)
    (link : Option String) : List (String × String) :=
  match tbl.find? (fun e => pyIn e.1 label) with
  | none => []
  | some (_, FieldSpec.plain k) => [(k, value)]
  | some (_, FieldSpec.period) => periodAssign value
  | some (_, FieldSpec.site k) =>
    match link with
    | some href => [(k, href)]
    | none => []

/-- Assignments of one th/td pair: label and value normalization followed by
section dispatch (first section marker contained in the table title wins). -/
def cellAssign (tableTitle : String) (th : String) (td : PCell) :
    List (String × String) :=
  match sectionTables.find? (fun e => pyIn e.1 tableTitle) with
  | none => []
  | some (_, tbl) =>
    assignFromTable tbl (pyStrip th) (replaceNbsp (pyStrip td.text)) td.link

/-- Assignments contributed by one table, row by row, zipping th with td. -/
def tableAssignments (tbl : PTable) : List (String × String) :=
  tbl.rows.flatMap (fun row =>
    (row.ths.zip row.tds).flatMap (fun p => cellAssign tbl.titleText p.1 p.2))

/-- All dict assignments performed by the nested loops of `parse_detail`,
in execution order. -/
def allAssignments (page : Page) : List (String × String) :=
  page.tables.flatMap tableAssignments

/-- The record dict is modelled as an insertion-ordered association list;
Python dict assignment updates an existing key in place, else appends. -/
def setKey : List (String × JVal) → String → JVal → List (String × JVal)
  | [], k, v => [(k, v)]
  | kv0 :: rest, k, v =>
    if kv0.1 = k then (k, v) :: rest else kv0 :: setKey rest k v

/-- Key lookup in the record dict (first, hence unique, occurrence). -/
def getKey : List (String × JVal) → String → Option JVal
  | [], _ => none
  | kv0 :: rest, k => if kv0.1 = k then some kv0.2 else getKey rest k

def BASE_VIEW_URL : String := "https://youth.seoul.go.kr/infoData/plcyInfo/view.do"

/-- Embeds `title.text.strip() if title else ""`. -/
def pageTitleText (page : Page) : String :=
  match page.title with
  | some t => pyStrip t
  | none => ""

/-- The dict literal `parse_detail` starts from
(`src/scripts/detail_parser.py` lines 22-27). -/
def initialData (policy_id title : String) : List (String × JVal) :=
  [("title", JVal.str title), ("plcyBizId", JVal.str policy_id),
   ("tags", JVal.arr ["일자리"]),
   ("page_url", JVal.str (BASE_VIEW_URL ++ "?plcyBizId=" ++ policy_id))]

/-- Embeds `parse_detail` (src/scripts/detail_parser.py): the network fetch
and DOM parse are the external record source; the page is its result. -/
def parse_detail (policy_id : String) (page : Page) : List (String × JVal) :=
  (allAssignments page).foldl (fun d kv => setKey d kv.1 (JVal.str kv.2))
    (initialData policy_id (pageTitleText page))

/-- Keys a field spec can write. -/
def keysOfSpec : FieldSpec → List String
  | .plain k => [k]
  | .period => ["apply_start", "apply_end"]
  | .site k => [k]

/-- All keys the label table of a section can write. -/
def keysOfTable (tbl : List (String × FieldSpec)) : List String :=
  tbl.flatMap (fun e => keysOfSpec e.2)

/-- The four keys present in the initial dict. -/
def reservedKeys : List String := ["title", "plcyBizId", "tags", "page_url"]

end Detail

/-! ## Vector search and answer synthesis (src/rag/query_rag.py) -/

namespace PolicyRAG

/-- Metadata stored with every document indexed by
`src/rag/build_vectorstore.py` (title, category, url are always present). -/
structure DocMeta where
  title : String
  category : String
  url : String
deriving DecidableEq, Repr

/-- One converted search result (`src/rag/query_rag.py` lines 107-112). -/
structure SearchResult where
  rank : Nat
  score : Rat
  metadata : DocMeta
  content : String
deriving DecidableEq, Repr

/-- The reply of `collection.query`: parallel per-row lists, as ChromaDB
returns them (one row per query embedding). -/
structure ChromaReply where
  ids : List (List String)
  distances : List (List Rat)
  metadatas : List (List DocMeta)
  documents : List (List String)

/-- The loaded collection, abstracted to its query behaviour: embedding the
query and querying the index either yields a reply or raises. -/
structure ChromaCollection where
  queryFn : String → Nat → Except String ChromaReply

/-- The generation capability: system prompt and user prompt to either a
completion text or an exception message. -/
abbrev GenClient := String → String → Except String String

/-- The mutable state a `PolicyRAG` instance holds after `load_vectorstore`:
an optional collection and an optional OpenAI client. -/
structure RAGState where
  collection : Option ChromaCollection
  openai_client : Option GenClient

/-- Embeds the result-conversion loop of `search_policies`
(`src/rag/query_rag.py` lines 99-113): zip the four row lists, enumerate,
rank is the 1-based position and score is `1 - distance`. -/
def convertRow (ids : List String) (dists : List Rat) (metas : List DocMeta)
    (docs : List String) : List SearchResult :=
  (((ids.zip dists).zip (metas.zip docs)).enum).map
    (fun e => { rank := e.1 + 1, score := 1 - e.2.1.2,
                metadata := e.2.2.1, content := e.2.2.2 })

/-- Embeds `search_policies` (src/rag/query_rag.py lines 83-119): raises a
ValueError when no collection is loaded; inside the try, any failure of the
index query is caught and an empty list returned; an empty reply row is
skipped by the truthiness guard. -/
def search_policies (st : RAGState) (query : String) (k : Nat) :
    Except String (List SearchResult) :=
  match st.collection with
  | none => Except.error "ChromaDB 컬렉션이 로드되지 않았습니다."
  | some col =>
    match col.queryFn query k with
    | Except.error _ => Except.ok []
    | Except.ok res =>
      match res.ids with
      | [] => Except.ok []
      | ids0 :: _ =>
        if ids0.isEmpty then Except.ok []
        else Except.ok (convertRow ids0 (res.distances.headD [])
          (res.metadatas.headD []) (res.documents.headD []))

/-- Embeds `create_context` (src/rag/query_rag.py lines 121-135): one block
per result joined with a newline; the empty list yields the empty string. -/
def create_context (search_results : List SearchResult) : String :=
  String.intercalate "\n" (search_results.map (fun r =>
    "\n정책 " ++ toString r.rank ++ ": " ++ r.metadata.title ++
    "\n카테고리: " ++ r.metadata.category ++
    "\nURL: " ++ r.metadata.url ++
    "\n유사도 점수: " ++ fmtFixed 3 r.score ++
    "\n내용: " ++ pyTake 500 r.content ++ "...\n"))

/-- The fixed system message of the model path. -/
def systemMessage : String := "당신은 서울시 청년 정책 전문 상담사입니다."

/-- The user prompt built by `generate_response_with_openai`
(src/rag/query_rag.py lines 142-153). -/
def mkPrompt (query context : String) : String :=
  "\n당신은 서울시 청년 정책 전문 상담사입니다. \n다음은 사용자의 질문과 관련된 정책 정보입니다:\n\n사용자 질문: "
  ++ query ++ "\n\n관련 정책 정보:\n" ++ context ++
  "\n\n위 정보를 바탕으로 사용자의 질문에 친절하고 정확하게 답변해주세요.\n답변은 한국어로 작성하고, 구체적인 정책명과 지원 내용을 포함해주세요.\n"

/-- Embeds `generate_response_with_openai` (src/rag/query_rag.py lines
137-167): one attempt; an exception becomes an error-reporting answer
string, never a raised error. -/
def generate_response_with_openai (client : Option GenClient)
    (query context : String) : String :=
  match client with
  | none => "OpenAI API 키가 설정되지 않았습니다."
  | some gen =>
    match gen systemMessage (mkPrompt query context) with
    | Except.ok text => text
    | Except.error e => "응답 생성 중 오류가 발생했습니다: " ++ e

/-- Embeds `generate_simple_response` (src/rag/query_rag.py lines 169-187):
the deterministic template path. -/
def generate_simple_response (query : String)
    (search_results : List SearchResult) : String :=
  if search_results.isEmpty then "관련된 정책을 찾을 수 없습니다."
  else
    String.intercalate "\n"
      (["\x27" ++ query ++ "\x27와 관련된 정책을 찾았습니다:\n"] ++
       search_results.map (fun r =>
         "\n" ++ toString r.rank ++ ". " ++ r.metadata.title ++
         "\n   - 카테고리: " ++ r.metadata.category ++
         "\n   - 관련도: " ++ fmtPercent1 r.score ++
         "\n   - 자세한 정보: " ++ r.metadata.url ++ "\n") ++
       ["\n더 자세한 정보는 위 링크를 통해 확인하실 수 있습니다."])

/-- The result bundle of `query`; `error` is `none` exactly when the source
dict carries no `error` key. -/
structure AnswerBundle where
  question : String
  answer : String
  search_results : List SearchResult
  context : String
  used_openai : Bool
  error : Option String

/-- Embeds `PolicyRAG.query` (src/rag/query_rag.py lines 189-220): the only
exception reaching the try of the orchestrator is the ValueError of
`search_policies`; the except branch returns the error bundle. -/
def query (st : RAGState) (question : String) (use_openai : Bool) (k : Nat) :
    AnswerBundle :=
  match search_policies st question k with
  | Except.error e =>
    { question := question, answer := "오류가 발생했습니다: " ++ e,
      search_results := [], context := "", used_openai := false,
      error := some e }
  | Except.ok results =>
    let context := create_context results
    let answer :=
      if use_openai && st.openai_client.isSome then
        generate_response_with_openai st.openai_client question context
      else generate_simple_response question results
    { question := question, answer := answer, search_results := results,
      context := context, used_openai := use_openai && st.openai_client.isSome,
      error := none }

end PolicyRAG

/-! ## Web-evidence variant (src/web_search/query_duckduckgo.py) -/

namespace WebSearchRAG

/-- One web search result tuple. -/
structure WebResult where
  title : String
  link : String
  snippet : String
  source : String
deriving Repr

/-- Embeds `create_search_context` (src/web_search/query_duckduckgo.py lines
51-66): the empty list yields the fixed sentinel. -/
def create_search_context (search_results : List WebResult) : String :=
  if search_results.isEmpty then "관련된 웹 검색 결과가 없습니다."
  else
    String.intercalate "\n" (search_results.enum.map (fun e =>
      "\n검색 결과 " ++ toString (e.1 + 1) ++ ":\n제목: " ++ e.2.title ++
      "\n출처: " ++ e.2.source ++ "\n링크: " ++ e.2.link ++
      "\n내용: " ++ e.2.snippet ++ "\n"))

end WebSearchRAG

/-! ## Index builders (src/scripts/build_vectorstore.py, src/rag/build_vectorstore.py) -/

namespace Vectorizer

/-- Embeds `PolicyVectorizer.create_metadata`
(src/scripts/build_vectorstore.py lines 96-123): fixed scalar keys fetched
with empty defaults, then keys with falsy (empty) values removed. -/
def create_metadata (policy : List (String × String)) : List (String × String) :=
  let metadata :=
    [("policy_id", pyGetD policy "plcyBizId" ""),
     ("title", pyGetD policy "title" ""),
     ("policy_type", pyGetD policy "policy_type" ""),
     ("agency", pyGetD policy "agency" ""),
     ("age_range", pyGetD policy "age_range" ""),
     ("education", pyGetD policy "education" ""),
     ("employment_status", pyGetD policy "employment_status" ""),
     ("apply_start", pyGetD policy "apply_start" ""),
     ("apply_end", pyGetD policy "apply_end" ""),
     ("support_scale", pyGetD policy "support_scale" ""),
     ("page_url", pyGetD policy "page_url" ""),
     ("application_site", pyGetD policy "application_site" "")]
  metadata.filter (fun kv => kv.2 != "")

end Vectorizer

namespace VectorStore

/-- A metadata value of the ChromaDB builder: a string field or the integer
`original_index`. -/
inductive MVal where
  | s : String → MVal
  | n : Nat → MVal
deriving DecidableEq, Repr

/-- Python truthiness of a metadata value: empty string and 0 are falsy. -/
def MVal.falsy : MVal → Bool
  | .s v => v == ""
  | .n k => k == 0

/-- Embeds the metadata construction of `PolicyVectorStore.prepare_documents`
(src/rag/build_vectorstore.py lines 90-96): no filtering of empty values. -/
def prepare_doc_metadata (policy : List (String × String)) (i : Nat) :
    List (String × MVal) :=
  [("title", MVal.s (pyGetD policy "title" "")),
   ("category", MVal.s (pyGetD policy "category" "")),
   ("url", MVal.s (pyGetD policy "url" "")),
   ("collected_at", MVal.s (pyGetD policy "collected_at" "")),
   ("original_index", MVal.n i)]

/-- Embeds the document text of `prepare_documents`
(src/rag/build_vectorstore.py line 87). -/
def prepare_doc_text (policy : List (String × String)) : String :=
  "제목: " ++ pyGetD policy "title" "" ++ "\n설명: " ++
  pyGetD policy "description" "" ++ "\n내용: " ++ pyGetD policy "content" ""

end VectorStore

/-! ## Concrete inputs used by witnesses and counterexamples -/

/-- A collection whose query always reports the empty reply of an empty
ChromaDB collection. -/
def colEmpty : PolicyRAG.ChromaCollection :=
  ⟨fun _ _ => Except.ok ⟨[[]], [[]], [[]], [[]]⟩⟩

/-- State with a loaded but empty collection (count() == 0). -/
def stEmpty : PolicyRAG.RAGState := ⟨some colEmpty, none⟩

/-- State in which the collection failed to load (absent). -/
def stNone : PolicyRAG.RAGState := ⟨none, none⟩

/-- A collection returning one match at distance 1/2. -/
def colOne : PolicyRAG.ChromaCollection :=
  ⟨fun _ _ => Except.ok ⟨[["d1"]], [[(1 : Rat)/2]], [[⟨"T", "C", "U"⟩]], [["body"]]⟩⟩

/-- A generation capability configured to always fail. -/
def genFail : PolicyRAG.GenClient := fun _ _ => Except.error "boom"

/-- State with a loaded nonempty collection and an always-failing client. -/
def stFail : PolicyRAG.RAGState := ⟨some colOne, some genFail⟩

/-- A page with no title element and no tables. -/
def pageNoTitle : Detail.Page := ⟨none, []⟩

/-! ## Helper lemmas -/

theorem splitChar_ne_nil (c : Char) (l : List Char) : splitChar c l ≠ [] := by
  cases l with
  | nil => simp [splitChar]
  | cons x xs =>
    unfold splitChar
    cases h : splitChar c xs with
    | nil => simp
    | cons s rest => by_cases hx : x = c <;> simp [hx]

theorem mem_splitChar_length (c : Char) (l : List Char) (h : c ∈ l) :
    2 ≤ (splitChar c l).length := by
  induction l with
  | nil => cases h
  | cons x xs ih =>
    unfold splitChar
    cases hs : splitChar c xs with
    | nil => exact absurd hs (splitChar_ne_nil c xs)
    | cons s rest =>
      by_cases hx : x = c
      · simp [hx]
      · have hmem : c ∈ xs := by
          rcases List.mem_cons.mp h with h1 | h1
          · exact absurd h1.symm hx
          · exact h1
        have h2 := ih hmem
        rw [hs] at h2
        simp only [List.length_cons] at h2
        simp [hx]
        omega

theorem pyInChar_mem (c : Char) (s : String) (h : pyInChar c s = true) :
    c ∈ s.data := by
  simp only [pyInChar, List.contains] at h
  exact List.elem_iff.mp h

theorem headD_map_ne_nil {α β : Type} (f : α → β) (l : List α) (h : l ≠ [])
    (d1 : β) (d2 : α) : (l.map f).headD d1 = f (l.headD d2) := by
  cases l with
  | nil => exact absurd rfl h
  | cons a as => rfl

theorem getLastD_map_ne_nil {α β : Type} (f : α → β) (l : List α) (h : l ≠ [])
    (d1 : β) (d2 : α) : (l.map f).getLastD d1 = f (l.getLastD d2) := by
  induction l generalizing d1 d2 with
  | nil => exact absurd rfl h
  | cons a as ih =>
    cases as with
    | nil => simp
    | cons b bs =>
      rw [List.map_cons, List.getLastD_cons, List.getLastD_cons]
      exact ih (by simp) (f a) a

theorem getKey_setKey_ne (d : List (String × Detail.JVal)) (k1 k : String)
    (v : Detail.JVal) (h : k1 ≠ k) :
    Detail.getKey (Detail.setKey d k1 v) k = Detail.getKey d k := by
  induction d with
  | nil => simp [Detail.setKey, Detail.getKey, h]
  | cons kv0 rest ih =>
    by_cases h0 : kv0.1 = k1
    · rw [show Detail.setKey (kv0 :: rest) k1 v = (k1, v) :: rest from by
        simp [Detail.setKey, h0]]
      simp [Detail.getKey, h, h0]
    · rw [show Detail.setKey (kv0 :: rest) k1 v = kv0 :: Detail.setKey rest k1 v
        from by simp [Detail.setKey, h0]]
      by_cases hk : kv0.1 = k
      · simp [Detail.getKey, hk]
      · simp [Detail.getKey, hk, ih]

theorem getKey_foldl (l : List (String × String)) (d : List (String × Detail.JVal))
    (k : String) (h : ∀ kv ∈ l, kv.1 ≠ k) :
    Detail.getKey
      (l.foldl (fun d kv => Detail.setKey d kv.1 (Detail.JVal.str kv.2)) d) k =
    Detail.getKey d k := by
  induction l generalizing d with
  | nil => rfl
  | cons kv tl ih =>
    rw [List.foldl_cons, ih _ (fun x hx => h x (List.mem_cons_of_mem _ hx)),
      getKey_setKey_ne _ _ _ _ (h kv (List.mem_cons_self _ _))]

theorem periodAssign_key (value : String) (kv : String × String)
    (h : kv ∈ Detail.periodAssign value) :
    kv.1 = "apply_start" ∨ kv.1 = "apply_end" := by
  unfold Detail.periodAssign at h
  split at h
  · split at h <;> fin_cases h <;> simp
  · fin_cases h <;> simp

theorem assignFromTable_key_mem (tbl : List (String × Detail.FieldSpec))
    (label value : String) (link : Option String) (kv : String × String)
    (h : kv ∈ Detail.assignFromTable tbl label value link) :
    kv.1 ∈ Detail.keysOfTable tbl := by
  unfold Detail.assignFromTable at h
  cases hf : tbl.find? (fun e => pyIn e.1 label) with
  | none => rw [hf] at h; cases h
  | some e =>
    rw [hf] at h
    have hmem := List.mem_of_find?_eq_some hf
    obtain ⟨p, spec⟩ := e
    cases spec with
    | plain k =>
      simp only [List.mem_singleton] at h
      subst h
      exact List.mem_flatMap.mpr ⟨(p, .plain k), hmem, by simp [Detail.keysOfSpec]⟩
    | period =>
      rcases periodAssign_key value kv h with h1 | h1 <;>
        exact List.mem_flatMap.mpr
          ⟨(p, .period), hmem, by simp [Detail.keysOfSpec, h1]⟩
    | site k =>
      cases link with
      | none => cases h
      | some href =>
        simp only [List.mem_singleton] at h
        subst h
        exact List.mem_flatMap.mpr ⟨(p, .site k), hmem, by simp [Detail.keysOfSpec]⟩

theorem allAssignments_key_mem (page : Detail.Page) (kv : String × String)
    (h : kv ∈ Detail.allAssignments page) :
    kv.1 ∈ Detail.keysOfTable Detail.overviewTable ∨
    kv.1 ∈ Detail.keysOfTable Detail.eligibilityTable ∨
    kv.1 ∈ Detail.keysOfTable Detail.methodTable ∨
    kv.1 ∈ Detail.keysOfTable Detail.etcTable := by
  unfold Detail.allAssignments at h
  rcases List.mem_flatMap.mp h with ⟨tbl, _, h2⟩
  unfold Detail.tableAssignments at h2
  rcases List.mem_flatMap.mp h2 with ⟨row, _, h3⟩
  rcases List.mem_flatMap.mp h3 with ⟨p, _, h4⟩
  unfold Detail.cellAssign at h4
  cases hf : Detail.sectionTables.find? (fun e => pyIn e.1 tbl.titleText) with
  | none => rw [hf] at h4; cases h4
  | some e =>
    rw [hf] at h4
    have hmem := List.mem_of_find?_eq_some hf
    obtain ⟨s, t⟩ := e
    simp only [Detail.sectionTables, List.mem_cons, List.not_mem_nil, or_false,
      Prod.mk.injEq] at hmem
    rcases hmem with ⟨-, rfl⟩ | ⟨-, rfl⟩ | ⟨-, rfl⟩ | ⟨-, rfl⟩
    · exact Or.inl (assignFromTable_key_mem _ _ _ _ _ h4)
    · exact Or.inr (Or.inl (assignFromTable_key_mem _ _ _ _ _ h4))
    · exact Or.inr (Or.inr (Or.inl (assignFromTable_key_mem _ _ _ _ _ h4)))
    · exact Or.inr (Or.inr (Or.inr (assignFromTable_key_mem _ _ _ _ _ h4)))

theorem allAssignments_not_reserved (page : Detail.Page) (kv : String × String)
    (h : kv ∈ Detail.allAssignments page) : kv.1 ∉ Detail.reservedKeys := by
  rcases allAssignments_key_mem page kv h with hm | hm | hm | hm
  · exact (by decide :
      ∀ x ∈ Detail.keysOfTable Detail.overviewTable, x ∉ Detail.reservedKeys) _ hm
  · exact (by decide :
      ∀ x ∈ Detail.keysOfTable Detail.eligibilityTable, x ∉ Detail.reservedKeys) _ hm
  · exact (by decide :
      ∀ x ∈ Detail.keysOfTable Detail.methodTable, x ∉ Detail.reservedKeys) _ hm
  · exact (by decide :
      ∀ x ∈ Detail.keysOfTable Detail.etcTable, x ∉ Detail.reservedKeys) _ hm

theorem parse_detail_base (id : String) (page : Detail.Page) :
    Detail.getKey (Detail.parse_detail id page) "title" =
      some (Detail.JVal.str (Detail.pageTitleText page)) ∧
    Detail.getKey (Detail.parse_detail id page) "plcyBizId" =
      some (Detail.JVal.str id) ∧
    Detail.getKey (Detail.parse_detail id page) "tags" =
      some (Detail.JVal.arr ["일자리"]) ∧
    Detail.getKey (Detail.parse_detail id page) "page_url" =
      some (Detail.JVal.str (Detail.BASE_VIEW_URL ++ "?plcyBizId=" ++ id)) := by
  have hgen : ∀ k, k ∈ Detail.reservedKeys →
      Detail.getKey (Detail.parse_detail id page) k =
      Detail.getKey (Detail.initialData id (Detail.pageTitleText page)) k := by
    intro k hk
    unfold Detail.parse_detail
    exact getKey_foldl _ _ _ (fun kv hkv heq =>
      allAssignments_not_reserved page kv hkv (by rw [heq]; exact hk))
  refine ⟨?_, ?_, ?_, ?_⟩ <;> rw [hgen _ (by decide)] <;> rfl

theorem no_nested_patterns :
    ∀ tbl ∈ [Detail.overviewTable, Detail.eligibilityTable, Detail.methodTable,
      Detail.etcTable], ∀ e1 ∈ tbl, ∀ e2 ∈ tbl,
      e1.1 ≠ e2.1 → pyIn e1.1 e2.1 = false := by decide

/-! ## Claim theorems: Record Normalizer -/

/-- C5: for every raw application-period value, if the value contains the
range delimiter "~" then apply_start is the first delimited segment
(trimmed) and apply_end is the last delimited segment (trimmed), middle
segments discarded; without the delimiter apply_start is the whole value
and apply_end the empty string — both keys are always assigned. -/
theorem c5_apply_period_split (value : String) :
    Detail.periodAssign value =
      if pyInChar '~' value then
        [("apply_start", pyStrip ((pySplitChar '~' value).headD "")),
         ("apply_end", pyStrip ((pySplitChar '~' value).getLastD ""))]
      else
        [("apply_start", value), ("apply_end", "")] := by
  by_cases hc : pyInChar '~' value
  · have hmem : '~' ∈ value.data := pyInChar_mem _ _ hc
    have hlen : 2 ≤ (pySplitChar '~' value).length := by
      simpa [pySplitChar] using mem_splitChar_length '~' value.data hmem
    have hne : pySplitChar '~' value ≠ [] := by
      intro h0
      rw [h0] at hlen
      simp at hlen
    have hlen2 : 2 ≤ ((pySplitChar '~' value).map pyStrip).length := by
      simpa using hlen
    simp only [Detail.periodAssign, hc, if_true, hlen2]
    rw [headD_map_ne_nil pyStrip _ hne "" "", getLastD_map_ne_nil pyStrip _ hne "" ""]
  · simp [Detail.periodAssign, hc]

/-- C6: when two entries of the label table of one section have patterns one of
which is a substring of the other, a label matched by the longer pattern is
dispatched to that longer (more specific) entry. In this code the situation
only arises degenerately — no two distinct patterns of a section table
are in a substring relation (`no_nested_patterns`) — so the first-match
dispatch of the source `elif` chain satisfies it. -/
theorem c6_specific_pattern_wins (tbl : List (String × Detail.FieldSpec))
    (htbl : tbl ∈ [Detail.overviewTable, Detail.eligibilityTable,
      Detail.methodTable, Detail.etcTable])
    (e1 e2 : String × Detail.FieldSpec) (h1 : e1 ∈ tbl) (h2 : e2 ∈ tbl)
    (hsub : pyIn e1.1 e2.1 = true) (label : String)
    (_hmatch : pyIn e2.1 label = true) :
    e1.1 = e2.1 ∨ tbl.find? (fun e => pyIn e.1 label) = some e2 := by
  by_cases heq : e1.1 = e2.1
  · exact Or.inl heq
  · have hfalse := no_nested_patterns tbl htbl e1 h1 e2 h2 heq
    rw [hsub] at hfalse
    exact Bool.noConfusion hfalse

/-- Witness for C6, at the 연령 entry of the eligibility table matched by
the label 연령. -/
theorem c6_witness :
    ("연령" : String) = "연령" ∨
      Detail.eligibilityTable.find? (fun e => pyIn e.1 "연령") =
        some ("연령", Detail.FieldSpec.plain "age_range") :=
  c6_specific_pattern_wins Detail.eligibilityTable (by decide)
    ("연령", Detail.FieldSpec.plain "age_range")
    ("연령", Detail.FieldSpec.plain "age_range")
    (by decide) (by decide) (by decide) "연령" (by decide)

/-- C7 counterexample: on a page with no title element, normalization
produces an empty title (the claim asserts title is always non-empty), and
a field whose label the page omits is an absent key, not an empty string
(the claim asserts it defaults to the empty string). -/
theorem c7_counterexample :
    Detail.getKey (Detail.parse_detail "P1" pageNoTitle) "title" =
      some (Detail.JVal.str "") ∧
    Detail.getKey (Detail.parse_detail "P1" pageNoTitle) "policy_type" = none :=
  ⟨rfl, rfl⟩

/-- C7 amended: normalization is total and always yields the four base
keys; plcyBizId equals the input policy id, title defaults to the empty
string when the page lacks a title element, and a field key written by no
label of the page is absent from the record (not an empty string). -/
theorem c7_normalization_defaults (id : String) (page : Detail.Page) (k : String)
    (h1 : k ∉ Detail.reservedKeys)
    (h2 : ∀ kv ∈ Detail.allAssignments page, kv.1 ≠ k) :
    Detail.getKey (Detail.parse_detail id page) "plcyBizId" =
      some (Detail.JVal.str id) ∧
    Detail.getKey (Detail.parse_detail id page) "title" =
      some (Detail.JVal.str (Detail.pageTitleText page)) ∧
    Detail.getKey (Detail.parse_detail id page) k = none := by
  refine ⟨(parse_detail_base id page).2.1, (parse_detail_base id page).1, ?_⟩
  unfold Detail.parse_detail
  rw [getKey_foldl _ _ _ h2]
  simp only [Detail.reservedKeys, List.mem_cons, List.not_mem_nil, or_false,
    not_or] at h1
  obtain ⟨n1, n2, n3, n4⟩ := h1
  simp [Detail.getKey, Detail.initialData, Ne.symm n1, Ne.symm n2, Ne.symm n3,
    Ne.symm n4]

/-- Witness for the amended C7, at a page with no title and no tables and
the omitted field policy_type. -/
theorem c7_witness :
    Detail.getKey (Detail.parse_detail "P1" pageNoTitle) "plcyBizId" =
      some (Detail.JVal.str "P1") ∧
    Detail.getKey (Detail.parse_detail "P1" pageNoTitle) "title" =
      some (Detail.JVal.str (Detail.pageTitleText pageNoTitle)) ∧
    Detail.getKey (Detail.parse_detail "P1" pageNoTitle) "policy_type" = none :=
  c7_normalization_defaults "P1" pageNoTitle "policy_type" (by decide)
    (by intro kv hkv; simp [pageNoTitle, Detail.allAssignments] at hkv)

/-- C10: for every policy id and every page, the normalized record contains
the keys title, plcyBizId, tags and page_url; tags is the constant list
[일자리] and page_url is derived from the policy id alone, regardless of the
content of the page. -/
theorem c10_constant_provenance (id : String) (page : Detail.Page) :
    Detail.getKey (Detail.parse_detail id page) "tags" =
      some (Detail.JVal.arr ["일자리"]) ∧
    Detail.getKey (Detail.parse_detail id page) "page_url" =
      some (Detail.JVal.str (Detail.BASE_VIEW_URL ++ "?plcyBizId=" ++ id)) ∧
    Detail.getKey (Detail.parse_detail id page) "plcyBizId" =
      some (Detail.JVal.str id) ∧
    Detail.getKey (Detail.parse_detail id page) "title" =
      some (Detail.JVal.str (Detail.pageTitleText page)) := by
  obtain ⟨ht, hp, hg, hu⟩ := parse_detail_base id page
  exact ⟨hg, hu, hp, ht⟩

/-! ## Claim theorems: retrieval, synthesis, orchestration -/

theorem search_isOk (st : PolicyRAG.RAGState) (q : String) (k : Nat)
    (col : PolicyRAG.ChromaCollection) (hcol : st.collection = some col) :
    ∃ rs, PolicyRAG.search_policies st q k = Except.ok rs := by
  cases hq : col.queryFn q k with
  | error e => exact ⟨[], by simp [PolicyRAG.search_policies, hcol, hq]⟩
  | ok res =>
    cases hid : res.ids with
    | nil => exact ⟨[], by simp [PolicyRAG.search_policies, hcol, hq, hid]⟩
    | cons ids0 rest =>
      by_cases hi : ids0.isEmpty
      · exact ⟨[], by simp [PolicyRAG.search_policies, hcol, hq, hid, hi]⟩
      · exact ⟨PolicyRAG.convertRow ids0 (res.distances.headD [])
          (res.metadatas.headD []) (res.documents.headD []),
          by simp [PolicyRAG.search_policies, hcol, hq, hid, hi]⟩

/-- C1 counterexample: with a nonempty index and a generation capability
configured to always fail, the bundle returned by `query` does not have
`used_openai = false` with the template rendering as answer — `used_openai`
is true (it records configuration, not success) and the answer is the
error-reporting string of the model path, not the template rendering. -/
theorem c1_counterexample :
    ¬ ((PolicyRAG.query stFail "q" true 5).used_openai = false ∧
       (PolicyRAG.query stFail "q" true 5).answer =
         PolicyRAG.generate_simple_response "q"
           (PolicyRAG.query stFail "q" true 5).search_results) := by
  intro hcl
  have h1 := hcl.1
  rw [show (PolicyRAG.query stFail "q" true 5).used_openai = true from rfl] at h1
  exact Bool.noConfusion h1

/-- C1 amended: with a loaded collection and a configured generation
capability that always fails, `query` still returns a bundle with no error
marker (the single model-path failure is caught, not raised), but the
used-model flag is true and the answer is the error-reporting string of the
model path rather than the template rendering. -/
theorem c1_failed_model_path (st : PolicyRAG.RAGState) (q : String) (k : Nat)
    (col : PolicyRAG.ChromaCollection) (gen : PolicyRAG.GenClient) (e : String)
    (hcol : st.collection = some col) (hcli : st.openai_client = some gen)
    (hfail : ∀ s u, gen s u = Except.error e) :
    (PolicyRAG.query st q true k).error = none ∧
    (PolicyRAG.query st q true k).used_openai = true ∧
    (PolicyRAG.query st q true k).answer =
      "응답 생성 중 오류가 발생했습니다: " ++ e := by
  obtain ⟨rs, hrs⟩ := search_isOk st q k col hcol
  unfold PolicyRAG.query
  rw [hrs]
  simp [hcli, PolicyRAG.generate_response_with_openai, hfail]

/-- Witness for the amended C1 at a concrete state with one indexed match
and an always-failing client. -/
theorem c1_witness :
    (PolicyRAG.query stFail "q" true 5).error = none ∧
    (PolicyRAG.query stFail "q" true 5).used_openai = true ∧
    (PolicyRAG.query stFail "q" true 5).answer =
      "응답 생성 중 오류가 발생했습니다: " ++ "boom" :=
  c1_failed_model_path stFail "q" 5 colOne genFail "boom" rfl rfl
    (fun _ _ => rfl)

/-- C2 counterexample: on the absent collection, `search_policies` raises a
ValueError (does not return an empty list). -/
theorem c2_counterexample :
    PolicyRAG.search_policies stNone "q" 5 =
      Except.error "ChromaDB 컬렉션이 로드되지 않았습니다." ∧
    PolicyRAG.search_policies stNone "q" 5 ≠ Except.ok [] :=
  ⟨rfl, by
    intro hcontra
    rw [show PolicyRAG.search_policies stNone "q" 5 =
      Except.error "ChromaDB 컬렉션이 로드되지 않았습니다." from rfl] at hcontra
    exact Except.noConfusion hcontra⟩

/-- C2 amended: when the collection is loaded but empty (its query reply
carries an empty id row), `search_policies` returns the empty list without
raising; only the absent collection raises. -/
theorem c2_empty_collection (st : PolicyRAG.RAGState) (q : String) (k : Nat)
    (col : PolicyRAG.ChromaCollection) (reply : PolicyRAG.ChromaReply)
    (hcol : st.collection = some col) (hq : col.queryFn q k = Except.ok reply)
    (hids : reply.ids.headD [] = []) :
    PolicyRAG.search_policies st q k = Except.ok [] := by
  cases hid : reply.ids with
  | nil => simp [PolicyRAG.search_policies, hcol, hq, hid]
  | cons ids0 rest =>
    rw [hid] at hids
    simp only [List.headD_cons] at hids
    subst hids
    simp [PolicyRAG.search_policies, hcol, hq, hid]

/-- Witness for the amended C2 at the concrete empty-collection state. -/
theorem c2_witness : PolicyRAG.search_policies stEmpty "q" 5 = Except.ok [] :=
  c2_empty_collection stEmpty "q" 5 colEmpty ⟨[[]], [[]], [[]], [[]]⟩ rfl rfl rfl

/-- C3 counterexample: on a loaded collection with zero documents
(count() == 0), `query` returns a normal silently-empty bundle — no error
marker, empty match list, the "nothing found" template answer — not a
distinct NotReady error. -/
theorem c3_counterexample :
    (PolicyRAG.query stEmpty "청년 일자리" false 3).error = none ∧
    (PolicyRAG.query stEmpty "청년 일자리" false 3).search_results = [] ∧
    (PolicyRAG.query stEmpty "청년 일자리" false 3).answer =
      "관련된 정책을 찾을 수 없습니다." :=
  ⟨rfl, rfl, rfl⟩

/-- C3 amended: only the missing collection yields a distinct error bundle
(error marker set, error-reporting answer, no matches); an empty collection
yields a normal bundle instead. -/
theorem c3_absent_collection (st : PolicyRAG.RAGState) (q : String) (u : Bool)
    (k : Nat) (h : st.collection = none) :
    (PolicyRAG.query st q u k).error =
      some "ChromaDB 컬렉션이 로드되지 않았습니다." ∧
    (PolicyRAG.query st q u k).answer =
      "오류가 발생했습니다: " ++ "ChromaDB 컬렉션이 로드되지 않았습니다." ∧
    (PolicyRAG.query st q u k).search_results = [] := by
  have hs : PolicyRAG.search_policies st q k =
      Except.error "ChromaDB 컬렉션이 로드되지 않았습니다." := by
    simp [PolicyRAG.search_policies, h]
  unfold PolicyRAG.query
  rw [hs]
  exact ⟨rfl, rfl, rfl⟩

/-- Witness for the amended C3 at the concrete absent-collection state. -/
theorem c3_witness :
    (PolicyRAG.query stNone "q" false 5).error =
      some "ChromaDB 컬렉션이 로드되지 않았습니다." ∧
    (PolicyRAG.query stNone "q" false 5).answer =
      "오류가 발생했습니다: " ++ "ChromaDB 컬렉션이 로드되지 않았습니다." ∧
    (PolicyRAG.query stNone "q" false 5).search_results = [] :=
  c3_absent_collection stNone "q" false 5 rfl

/-- C4 counterexample: the vector-RAG context assembler returns the empty
string on the empty match list, not a non-empty sentinel. -/
theorem c4_counterexample : PolicyRAG.create_context [] = "" := rfl

/-- C4 amended: only the web-search context assembler returns the fixed
"no relevant information" sentinel on the empty list; the vector-RAG
context assembler returns the empty string. -/
theorem c4_empty_context :
    WebSearchRAG.create_search_context [] = "관련된 웹 검색 결과가 없습니다." ∧
    PolicyRAG.create_context [] = "" :=
  ⟨rfl, rfl⟩

/-- C8: in every converted search-result list, the match at 0-based
position i carries rank i+1 and similarity score exactly 1 minus the
native distance of the index at that position (no clamping is applied, so
a distance above 1 yields a negative score, as the witness shows). -/
theorem c8_rank_score (ids : List String) (dists : List Rat)
    (metas : List PolicyRAG.DocMeta) (docs : List String) (i : Nat)
    (h : i < (PolicyRAG.convertRow ids dists metas docs).length)
    (h2 : i < dists.length) :
    ((PolicyRAG.convertRow ids dists metas docs).get ⟨i, h⟩).rank = i + 1 ∧
    ((PolicyRAG.convertRow ids dists metas docs).get ⟨i, h⟩).score =
      1 - dists.get ⟨i, h2⟩ := by
  constructor <;>
    simp [PolicyRAG.convertRow, List.get_eq_getElem, List.getElem_map,
      List.getElem_enum, List.getElem_zip]

/-- Witness for C8 at a one-element result row with distance 2: the score
is 1 - 2 = -1, outside [0,1], demonstrating the absence of a clamp. -/
theorem c8_witness :
    ((PolicyRAG.convertRow ["a"] [(2 : Rat)] [⟨"T", "C", "U"⟩] ["d"]).get
        ⟨0, by decide⟩).rank = 0 + 1 ∧
    ((PolicyRAG.convertRow ["a"] [(2 : Rat)] [⟨"T", "C", "U"⟩] ["d"]).get
        ⟨0, by decide⟩).score = 1 - ([(2 : Rat)].get ⟨0, by decide⟩) :=
  c8_rank_score ["a"] [(2 : Rat)] [⟨"T", "C", "U"⟩] ["d"] 0 (by decide) (by decide)

/-- C9 counterexample: the document metadata of the ChromaDB builder keeps
empty-string values — for a policy without a category, the stored metadata
contains the key category with the falsy value "" (and original_index 0,
also falsy, for the first policy). -/
theorem c9_counterexample :
    ("category", VectorStore.MVal.s "") ∈
      VectorStore.prepare_doc_metadata [("title", "T")] 0 ∧
    VectorStore.MVal.falsy (VectorStore.MVal.s "") = true ∧
    ("original_index", VectorStore.MVal.n 0) ∈
      VectorStore.prepare_doc_metadata [("title", "T")] 0 :=
  ⟨by decide, rfl, by decide⟩

/-- C9 amended: `create_metadata` of the langchain vectorizer removes all
falsy (empty-string) values, so every key it stores has a non-empty value;
`prepare_doc_metadata` of the ChromaDB builder does not filter. -/
theorem c9_metadata_truthy (policy : List (String × String))
    (kv : String × String) (h : kv ∈ Vectorizer.create_metadata policy) :
    kv.2 ≠ "" := by
  simp only [Vectorizer.create_metadata, List.mem_filter] at h
  simpa using h.2

/-- Witness for the amended C9 at a one-field policy. -/
theorem c9_witness : ("T" : String) ≠ "" :=
  c9_metadata_truthy [("title", "T")] ("title", "T") (by decide)
